import Mathlib

/-!
Verification of the DfuSe file container codec (`src/DfuSeFile.h`).

The development is a shallow embedding of the C++ header: machine integers
become `Nat` with explicit `% 2^w` where the source type wraps, byte streams
become `List Nat` (each element one byte), and fallible stream reads become
`Option`-valued parsers.  Structures, field names and the order of operations
follow the source.
-/

namespace DfuSe

/-! ## Byte-level helpers

Multi-byte integers in the format are little-endian.  `toLE v k` renders the
low `k` bytes of `v` least-significant first (exactly the bytes an
`out.write((char*)&v, k)` emits on a little-endian host for an unsigned
field), and `fromLE` reassembles them. -/

def toLE (v : Nat) : Nat → List Nat
  | 0 => []
  | k + 1 => (v % 256) :: toLE (v / 256) k

def fromLE (bs : List Nat) : Nat :=
  bs.foldr (fun b acc => b % 256 + 256 * acc) 0

/-- Read exactly `n` bytes from the stream; `none` models the stream entering
the failed state when fewer bytes are available (`istream::read` sets
`failbit`). -/
def takeN (n : Nat) (s : List Nat) : Option (List Nat × List Nat) :=
  if n ≤ s.length then some (s.take n, s.drop n) else none

/-- Read a `k`-byte little-endian unsigned integer. -/
def readLE (k : Nat) (s : List Nat) : Option (Nat × List Nat) :=
  (takeN k s).map (fun p => (fromLE p.1, p.2))

/-! ## CRC32 engine

`crcstreambuf::crc32_make_table` (src/DfuSeFile.h lines 111-123): for each
`i < 256`, start from `i` and apply eight rounds of
`crc = (crc & 1) ? (crc >> 1) ^ poly : crc >> 1`. -/

def crc32_round (poly crc : Nat) : Nat :=
  if crc &&& 1 = 1 then (crc >>> 1) ^^^ poly else crc >>> 1

def crc32_entry_iter (poly : Nat) : Nat → Nat → Nat
  | 0, crc => crc
  | j + 1, crc => crc32_entry_iter poly j (crc32_round poly crc)

def crc32_make_table (poly : Nat) : List Nat :=
  (List.range 256).map (fun i => crc32_entry_iter poly 8 i)

/-- One step of the table-driven loop, shared verbatim by
`crcstreambuf::crc32_calculate` (line 128) and `detail::crc32` (line 638):
`crc = ((crc >> 8) & 0x00FFFFFF) ^ table[(crc ^ byte) & 0xFF]`. -/
def crc32_step (table : List Nat) (crc b : Nat) : Nat :=
  ((crc >>> 8) &&& 0x00FFFFFF) ^^^ table.getD ((crc ^^^ b) &&& 0xFF) 0

/-- The `for` loop over the buffer shared by both CRC routines. -/
def crc32_loop (table : List Nat) (crc : Nat) : List Nat → Nat
  | [] => crc
  | b :: rest => crc32_loop table (crc32_step table crc b) rest

/-- The hard-coded table `detail::crc_tab` (src/DfuSeFile.h lines 568-633),
transcribed entry for entry. -/
def crc_tab : List Nat := [
  0x0000000, 0x77073096, 0xee0e612c, 0x990951ba,
  0x76dc419, 0x706af48f, 0xe963a535, 0x9e6495a3,
  0xedb8832, 0x79dcb8a4, 0xe0d5e91e, 0x97d2d988,
  0x9b64c2b, 0x7eb17cbd, 0xe7b82d07, 0x90bf1d91,
  0x1db71064, 0x6ab020f2, 0xf3b97148, 0x84be41de,
  0x1adad47d, 0x6ddde4eb, 0xf4d4b551, 0x83d385c7,
  0x136c9856, 0x646ba8c0, 0xfd62f97a, 0x8a65c9ec,
  0x14015c4f, 0x63066cd9, 0xfa0f3d63, 0x8d080df5,
  0x3b6e20c8, 0x4c69105e, 0xd56041e4, 0xa2677172,
  0x3c03e4d1, 0x4b04d447, 0xd20d85fd, 0xa50ab56b,
  0x35b5a8fa, 0x42b2986c, 0xdbbbc9d6, 0xacbcf940,
  0x32d86ce3, 0x45df5c75, 0xdcd60dcf, 0xabd13d59,
  0x26d930ac, 0x51de003a, 0xc8d75180, 0xbfd06116,
  0x21b4f4b5, 0x56b3c423, 0xcfba9599, 0xb8bda50f,
  0x2802b89e, 0x5f058808, 0xc60cd9b2, 0xb10be924,
  0x2f6f7c87, 0x58684c11, 0xc1611dab, 0xb6662d3d,
  0x76dc4190, 0x1db7106, 0x98d220bc, 0xefd5102a,
  0x71b18589, 0x6b6b51f, 0x9fbfe4a5, 0xe8b8d433,
  0x7807c9a2, 0xf00f934, 0x9609a88e, 0xe10e9818,
  0x7f6a0dbb, 0x86d3d2d, 0x91646c97, 0xe6635c01,
  0x6b6b51f4, 0x1c6c6162, 0x856530d8, 0xf262004e,
  0x6c0695ed, 0x1b01a57b, 0x8208f4c1, 0xf50fc457,
  0x65b0d9c6, 0x12b7e950, 0x8bbeb8ea, 0xfcb9887c,
  0x62dd1ddf, 0x15da2d49, 0x8cd37cf3, 0xfbd44c65,
  0x4db26158, 0x3ab551ce, 0xa3bc0074, 0xd4bb30e2,
  0x4adfa541, 0x3dd895d7, 0xa4d1c46d, 0xd3d6f4fb,
  0x4369e96a, 0x346ed9fc, 0xad678846, 0xda60b8d0,
  0x44042d73, 0x33031de5, 0xaa0a4c5f, 0xdd0d7cc9,
  0x5005713c, 0x270241aa, 0xbe0b1010, 0xc90c2086,
  0x5768b525, 0x206f85b3, 0xb966d409, 0xce61e49f,
  0x5edef90e, 0x29d9c998, 0xb0d09822, 0xc7d7a8b4,
  0x59b33d17, 0x2eb40d81, 0xb7bd5c3b, 0xc0ba6cad,
  0xedb88320, 0x9abfb3b6, 0x3b6e20c, 0x74b1d29a,
  0xead54739, 0x9dd277af, 0x4db2615, 0x73dc1683,
  0xe3630b12, 0x94643b84, 0xd6d6a3e, 0x7a6a5aa8,
  0xe40ecf0b, 0x9309ff9d, 0xa00ae27, 0x7d079eb1,
  0xf00f9344, 0x8708a3d2, 0x1e01f268, 0x6906c2fe,
  0xf762575d, 0x806567cb, 0x196c3671, 0x6e6b06e7,
  0xfed41b76, 0x89d32be0, 0x10da7a5a, 0x67dd4acc,
  0xf9b9df6f, 0x8ebeeff9, 0x17b7be43, 0x60b08ed5,
  0xd6d6a3e8, 0xa1d1937e, 0x38d8c2c4, 0x4fdff252,
  0xd1bb67f1, 0xa6bc5767, 0x3fb506dd, 0x48b2364b,
  0xd80d2bda, 0xaf0a1b4c, 0x36034af6, 0x41047a60,
  0xdf60efc3, 0xa867df55, 0x316e8eef, 0x4669be79,
  0xcb61b38c, 0xbc66831a, 0x256fd2a0, 0x5268e236,
  0xcc0c7795, 0xbb0b4703, 0x220216b9, 0x5505262f,
  0xc5ba3bbe, 0xb2bd0b28, 0x2bb45a92, 0x5cb36a04,
  0xc2d7ffa7, 0xb5d0cf31, 0x2cd99e8b, 0x5bdeae1d,
  0x9b64c2b0, 0xec63f226, 0x756aa39c, 0x26d930a,
  0x9c0906a9, 0xeb0e363f, 0x72076785, 0x5005713,
  0x95bf4a82, 0xe2b87a14, 0x7bb12bae, 0xcb61b38,
  0x92d28e9b, 0xe5d5be0d, 0x7cdcefb7, 0xbdbdf21,
  0x86d3d2d4, 0xf1d4e242, 0x68ddb3f8, 0x1fda836e,
  0x81be16cd, 0xf6b9265b, 0x6fb077e1, 0x18b74777,
  0x88085ae6, 0xff0f6a70, 0x66063bca, 0x11010b5c,
  0x8f659eff, 0xf862ae69, 0x616bffd3, 0x166ccf45,
  0xa00ae278, 0xd70dd2ee, 0x4e048354, 0x3903b3c2,
  0xa7672661, 0xd06016f7, 0x4969474d, 0x3e6e77db,
  0xaed16a4a, 0xd9d65adc, 0x40df0b66, 0x37d83bf0,
  0xa9bcae53, 0xdebb9ec5, 0x47b2cf7f, 0x30b5ffe9,
  0xbdbdf21c, 0xcabac28a, 0x53b39330, 0x24b4a3a6,
  0xbad03605, 0xcdd70693, 0x54de5729, 0x23d967bf,
  0xb3667a2e, 0xc4614ab8, 0x5d681b02, 0x2a6f2b94,
  0xb40bbe37, 0xc30c8ea1, 0x5a05df1b, 0x2d02ef8d
]

/-- `detail::crc32` (src/DfuSeFile.h lines 635-641): the table loop over the
buffer followed by an unconditional final XOR with `0xFFFFFFFF`. -/
def detail_crc32 (crc : Nat) (buf : List Nat) : Nat :=
  crc32_loop crc_tab crc buf ^^^ 0xFFFFFFFF

/-- The running-state update half of `detail::crc32` (its `for` loop without
the final XOR); the spec calls this operation `update(state, bytes)`. -/
def crc32_update (crc : Nat) (buf : List Nat) : Nat :=
  crc32_loop crc_tab crc buf

/-- The final-XOR half of `detail::crc32` (its `return (crc ^ 0xFFFFFFFF)`);
the spec calls this operation `finalize(state)`. -/
def crc32_finalize (crc : Nat) : Nat :=
  crc ^^^ 0xFFFFFFFF

/-- `crcstreambuf::crc32_calculate` (src/DfuSeFile.h lines 125-131): one
`xsputn` call runs the table loop over the chunk it was handed and then —
inside the same call — XORs the running state with `0xFFFFFFFF`.  The XOR is
therefore applied once per chunk, not once per computation. -/
def crcstreambuf_xsputn (table : List Nat) (crc : Nat) (chunk : List Nat) : Nat :=
  crc32_loop table crc chunk ^^^ 0xFFFFFFFF

/-- The value of the `crc32` member of a `crcstreambuf` constructed with
polynomial `0xEDB88320` and initial value `0xFFFFFFFF` after the given
sequence of `write` calls (each list element is the chunk of one call). -/
def crcstream_write_chunks (chunks : List (List Nat)) : Nat :=
  chunks.foldl (crcstreambuf_xsputn (crc32_make_table 0xedb88320)) 0xFFFFFFFF

set_option maxRecDepth 4096 in
/-- The hard-coded `detail::crc_tab` is exactly the table the stream buffer
generates from the polynomial `0xEDB88320`. -/
theorem crc_tab_eq_make_table : crc_tab = crc32_make_table 0xedb88320 := by
  decide

/-! ## Data model

The byte constants of the fixed signature fields: `"DfuSe"`, `"Target"`,
`"UFD"` and the example name `"App"` as ASCII codes. -/

def dfuSeSig : List Nat := [0x44, 0x66, 0x75, 0x53, 0x65]

def targetSig : List Nat := [0x54, 0x61, 0x72, 0x67, 0x65, 0x74]

def ufdSig : List Nat := [0x55, 0x46, 0x44]

/-- `DFUTarget::Prefix` (src/DfuSeFile.h lines 194-214). -/
structure TargetPrefix where
  Address : Nat
  Size : Nat
  deriving Repr, DecidableEq

/-- `DFUTarget` (src/DfuSeFile.h lines 143-217). -/
structure DFUTarget where
  m_Prefix : TargetPrefix
  m_elements : List Nat
  deriving Repr, DecidableEq

/-- `DFUTarget(uint32_t address, uint8_t* data, uint32_t size)`
(src/DfuSeFile.h lines 145-149): the payload is copied in whole, so
`m_Prefix.Size` equals the payload length; the address parameter is a
`uint32_t`, modelled by reducing mod `2^32`. -/
def DFUTarget.create (address : Nat) (data : List Nat) : DFUTarget :=
  { m_Prefix := { Address := address % 2 ^ 32, Size := data.length }
    m_elements := data }

/-- `DFUImage::Prefix` (src/DfuSeFile.h lines 309-348). -/
structure ImagePrefix where
  Signature : List Nat
  AltSetting : Nat
  IsNamed : Nat
  Name : List Nat
  Size : Nat
  Elements : Nat
  deriving Repr, DecidableEq

/-- `DFUImage` (src/DfuSeFile.h lines 242-352). -/
structure DFUImage where
  m_Prefix : ImagePrefix
  m_targets : List DFUTarget
  m_valid : Bool
  deriving Repr, DecidableEq

/-- `std::strncpy(m_Prefix.Name, targetName.c_str(), 255)` on the 255-byte
`Name` buffer: copy the source bytes up to its first NUL, at most 255 of
them, and NUL-fill the remainder of the buffer (no terminator is written
when the source supplies 255 bytes or more). -/
def strncpy255 (src : List Nat) : List Nat :=
  let s := (src.takeWhile (fun b => b != 0)).take 255
  s ++ List.replicate (255 - s.length) 0

/-- `DFUImage(uint8_t id, std::string targetName)` (src/DfuSeFile.h lines
244-251).  The constructor assigns `AltSetting`, `IsNamed`, `Name`,
`Signature` and `Size` but never assigns `m_Prefix.Elements`, which is
therefore indeterminate in the source; the model makes that explicit with
the `elementsInit` argument (a correct construction would be
`elementsInit = 0`). -/
def DFUImage.create (elementsInit : Nat) (id : Nat) (targetName : List Nat) : DFUImage :=
  { m_Prefix :=
      { Signature := targetSig
        AltSetting := id % 256
        IsNamed := if targetName = [] then 0 else 1
        Name := strncpy255 targetName
        Size := 0
        Elements := elementsInit }
    m_targets := []
    m_valid := false }

/-- `DFUImage::AddTarget` (src/DfuSeFile.h lines 267-273): push the target,
add `target.Size() + 8` to the `uint32_t` size accumulator, increment the
`uint32_t` element counter, and mark the image valid. -/
def DFUImage.AddTarget (img : DFUImage) (target : DFUTarget) : DFUImage :=
  { img with
    m_targets := img.m_targets ++ [target]
    m_Prefix :=
      { img.m_Prefix with
        Size := (img.m_Prefix.Size + target.m_Prefix.Size + 8) % 2 ^ 32
        Elements := (img.m_Prefix.Elements + 1) % 2 ^ 32 }
    m_valid := true }

/-- `DFUFile::Prefix` (src/DfuSeFile.h lines 493-518). -/
structure FilePrefix where
  Signature : List Nat
  Version : Nat
  Size : Nat
  Targets : Nat
  deriving Repr, DecidableEq

/-- `DFUFile::Suffix` (src/DfuSeFile.h lines 524-561). -/
structure FileSuffix where
  DeviceVersion : Nat
  Product : Nat
  Vendor : Nat
  DfuFormat : Nat
  Ufd : List Nat
  Length : Nat
  Crc32 : Nat
  deriving Repr, DecidableEq

/-- `DFUFile` (src/DfuSeFile.h lines 354-563). -/
structure DFUFile where
  m_valid : Bool
  m_Prefix : FilePrefix
  m_images : List DFUImage
  m_suffix : FileSuffix
  deriving Repr, DecidableEq

/-- `dfuse::FormatVersion = 0x11a` (src/DfuSeFile.h line 51). -/
def FormatVersion : Nat := 0x11a

/-- `DFUFile(uint16_t vendorId, uint16_t productId, uint16_t version)`
(src/DfuSeFile.h lines 356-371): empty image list, prefix initialized with
signature `"DfuSe"`, version 1, size 27 (the source comment reads
`Filesize, start at prefix + suffix sizes`) and zero targets; suffix
initialized from the three `uint16_t` parameters (modelled mod `2^16`),
`FormatVersion`, the `"UFD"` marker, length 16 and CRC 0. -/
def DFUFile.create (vendorId productId version : Nat) : DFUFile :=
  { m_valid := false
    m_Prefix := { Signature := dfuSeSig, Version := 1, Size := 27, Targets := 0 }
    m_images := []
    m_suffix :=
      { DeviceVersion := version % 2 ^ 16
        Product := productId % 2 ^ 16
        Vendor := vendorId % 2 ^ 16
        DfuFormat := FormatVersion
        Ufd := ufdSig
        Length := 16
        Crc32 := 0 } }

/-! ## Serialization (the `operator<<` overloads)

Each `out.write(ptr, n)` call on the CRC stream is one `xsputn` chunk, so the
serializers are given both as chunk lists (for the CRC accumulator of
`AddImage`) and as flat byte lists (their concatenation, which is what the
`Write` path sends to the output file). -/

/-- The `write` calls of `DFUFile::Prefix::operator<<` (lines 511-517). -/
def FilePrefix.chunks (p : FilePrefix) : List (List Nat) :=
  [p.Signature, toLE p.Version 1, toLE p.Size 4, toLE p.Targets 1]

def FilePrefix.serialize (p : FilePrefix) : List Nat :=
  p.chunks.flatten

/-- The `write` calls of `DFUTarget::Prefix::operator<<` followed by the
payload write of `DFUTarget::operator<<` (lines 187-193 and 206-213).  The
payload write emits `m_Prefix.Size` bytes from the element buffer; for every
target produced by the constructors or by parsing, `Size` equals the buffer
length, so the buffer itself is emitted (reading past it is undefined in the
source). -/
def DFUTarget.chunks (t : DFUTarget) : List (List Nat) :=
  [toLE t.m_Prefix.Address 4, toLE t.m_Prefix.Size 4, t.m_elements]

def DFUTarget.serialize (t : DFUTarget) : List Nat :=
  t.chunks.flatten

/-- The `write` calls of `DFUImage::Prefix::operator<<` (lines 336-347). -/
def ImagePrefix.chunks (p : ImagePrefix) : List (List Nat) :=
  [p.Signature, toLE p.AltSetting 1, toLE p.IsNamed 4, p.Name,
   toLE p.Size 4, toLE p.Elements 4]

def ImagePrefix.serialize (p : ImagePrefix) : List Nat :=
  p.chunks.flatten

/-- `DFUImage::operator<<` (lines 296-307): the prefix writes followed by
those of each target in order. -/
def DFUImage.chunks (img : DFUImage) : List (List Nat) :=
  img.m_Prefix.chunks ++ img.m_targets.flatMap DFUTarget.chunks

def DFUImage.serialize (img : DFUImage) : List Nat :=
  img.chunks.flatten

/-- The six suffix `write` calls `AddImage` feeds to the CRC stream
(src/DfuSeFile.h lines 423-428): every suffix field except `Crc32`. -/
def FileSuffix.chunksNoCrc (s : FileSuffix) : List (List Nat) :=
  [toLE s.DeviceVersion 2, toLE s.Product 2, toLE s.Vendor 2,
   toLE s.DfuFormat 2, s.Ufd, toLE s.Length 1]

/-- `DFUFile::Suffix::operator<<` (lines 551-560): all fields, `Crc32` last. -/
def FileSuffix.serialize (s : FileSuffix) : List Nat :=
  s.chunksNoCrc.flatten ++ toLE s.Crc32 4

/-- The full byte sequence `DFUFile::Write` (lines 434-450) sends to the
output file: prefix, images in order, suffix. -/
def DFUFile.serializeBytes (f : DFUFile) : List Nat :=
  f.m_Prefix.serialize ++ (f.m_images.map DFUImage.serialize).flatten ++
    f.m_suffix.serialize

/-- `DFUFile::Write` (lines 434-450) refuses to write an invalid container
(returns 1); otherwise it emits `serializeBytes`. -/
def DFUFile.Write (f : DFUFile) : Option (List Nat) :=
  if f.m_valid then some f.serializeBytes else none

/-- The chunk sequence `DFUFile::AddImage` streams through the CRC buffer
(src/DfuSeFile.h lines 418-428): the (already updated) prefix, every stored
image, then the six suffix fields before `Crc32`. -/
def DFUFile.crcChunks (pre : FilePrefix) (images : List DFUImage)
    (suffix : FileSuffix) : List (List Nat) :=
  pre.chunks ++ images.flatMap DFUImage.chunks ++ suffix.chunksNoCrc

/-- `DFUFile::AddImage` (src/DfuSeFile.h lines 405-432): no-op on an invalid
image; otherwise push the image, mark the file valid, increment the
`uint8_t` target counter, add `image.Size() + 274` to the `uint32_t` size
field, and store into `m_suffix.Crc32` the value the `crcstreambuf` holds
after streaming prefix, images and suffix-minus-CRC through it (the 4-byte
read at line 430 returns exactly the little-endian bytes of that running
`crc32` member). -/
def DFUFile.AddImage (f : DFUFile) (image : DFUImage) : DFUFile :=
  if image.m_valid then
    let images := f.m_images ++ [image]
    let pre : FilePrefix :=
      { f.m_Prefix with
        Targets := (f.m_Prefix.Targets + 1) % 256
        Size := (f.m_Prefix.Size + image.m_Prefix.Size + 274) % 2 ^ 32 }
    let crc := crcstream_write_chunks (DFUFile.crcChunks pre images f.m_suffix)
    { f with
      m_valid := true
      m_Prefix := pre
      m_images := images
      m_suffix := { f.m_suffix with Crc32 := crc } }
  else f

/-! ## Parsing (the `operator>>` overloads and `DFUFile(const char*)`)

A read returning `none` models the stream having entered the failed state
(`failbit`); the source checks `!in` / `!dfuFile` after the corresponding
reads.  Where the source leaves struct members indeterminate on a failed
path (partially read fields, the never-checked suffix), the model substitutes
fixed defaults; no theorem below depends on those values. -/

/-- `DFUTarget::Prefix::operator>>` (lines 198-205): two 4-byte reads. -/
def TargetPrefix.read (s : List Nat) : Option (TargetPrefix × List Nat) :=
  match readLE 4 s with
  | none => none
  | some (address, s1) =>
    match readLE 4 s1 with
    | none => none
    | some (size, s2) => some ({ Address := address, Size := size }, s2)

/-- `DFUTarget::operator>>` (lines 176-186): read the prefix, resize the
element buffer to the declared size, and read exactly that many payload
bytes (fewer available bytes fail the stream). -/
def DFUTarget.read (s : List Nat) : Option (DFUTarget × List Nat) :=
  match TargetPrefix.read s with
  | none => none
  | some (pre, s1) =>
    match takeN pre.Size s1 with
    | none => none
    | some (data, s2) => some ({ m_Prefix := pre, m_elements := data }, s2)

/-- `DFUImage::Prefix::operator>>` (lines 324-335): six sequential reads. -/
def ImagePrefix.read (s : List Nat) : Option (ImagePrefix × List Nat) :=
  match takeN 6 s with
  | none => none
  | some (sig, s1) =>
    match readLE 1 s1 with
    | none => none
    | some (alt, s2) =>
      match readLE 4 s2 with
      | none => none
      | some (named, s3) =>
        match takeN 255 s3 with
        | none => none
        | some (name, s4) =>
          match readLE 4 s4 with
          | none => none
          | some (size, s5) =>
            match readLE 4 s5 with
            | none => none
            | some (elements, s6) =>
              some ({ Signature := sig, AltSetting := alt, IsNamed := named,
                      Name := name, Size := size, Elements := elements }, s6)

/-- The `for (DFUTarget& target : obj.m_targets) { in >> target; if (!in)
return; }` loop of `DFUImage::operator>>` over the `Elements`-sized vector. -/
def readTargets : Nat → List Nat → Option (List DFUTarget × List Nat)
  | 0, s => some ([], s)
  | n + 1, s =>
    match DFUTarget.read s with
    | none => none
    | some (t, s1) =>
      match readTargets n s1 with
      | none => none
      | some (ts, s2) => some (t :: ts, s2)

/-- `DFUImage::operator>>` (lines 276-295): clear the validity flag, read the
prefix, return early (with the stream still good) when the 6-byte signature
is not `"Target"`, otherwise read the declared number of targets and mark
the image valid once all of them were read.  The result pairs the image
object with the stream state (`none` = failed). -/
def DFUImage.readImage (s : List Nat) : DFUImage × Option (List Nat) :=
  match ImagePrefix.read s with
  | none =>
    ({ m_Prefix := { Signature := [], AltSetting := 0, IsNamed := 0,
                     Name := [], Size := 0, Elements := 0 },
       m_targets := [], m_valid := false }, none)
  | some (pre, s1) =>
    if pre.Signature ≠ targetSig then
      ({ m_Prefix := pre, m_targets := [], m_valid := false }, some s1)
    else
      match readTargets pre.Elements s1 with
      | none => ({ m_Prefix := pre, m_targets := [], m_valid := false }, none)
      | some (ts, s2) => ({ m_Prefix := pre, m_targets := ts, m_valid := true }, some s2)

/-- `DFUFile::Prefix::operator>>` (lines 504-510): four sequential reads. -/
def FilePrefix.read (s : List Nat) : Option (FilePrefix × List Nat) :=
  match takeN 5 s with
  | none => none
  | some (sig, s1) =>
    match readLE 1 s1 with
    | none => none
    | some (version, s2) =>
      match readLE 4 s2 with
      | none => none
      | some (size, s3) =>
        match readLE 1 s3 with
        | none => none
        | some (targets, s4) =>
          some ({ Signature := sig, Version := version, Size := size,
                  Targets := targets }, s4)

/-- `DFUFile::Suffix::operator>>` (lines 541-550): seven sequential reads. -/
def FileSuffix.read (s : List Nat) : Option (FileSuffix × List Nat) :=
  match readLE 2 s with
  | none => none
  | some (dv, s1) =>
    match readLE 2 s1 with
    | none => none
    | some (product, s2) =>
      match readLE 2 s2 with
      | none => none
      | some (vendor, s3) =>
        match readLE 2 s3 with
        | none => none
        | some (format, s4) =>
          match takeN 3 s4 with
          | none => none
          | some (ufd, s5) =>
            match readLE 1 s5 with
            | none => none
            | some (len, s6) =>
              match readLE 4 s6 with
              | none => none
              | some (crc, s7) =>
                some ({ DeviceVersion := dv, Product := product, Vendor := vendor,
                        DfuFormat := format, Ufd := ufd, Length := len,
                        Crc32 := crc }, s7)

/-- The `for (DFUImage& image : m_images) { dfuFile >> image;
if (!dfuFile || !image) return; }` loop of `DFUFile(const char*)` over the
`Targets`-sized vector. -/
def readImages : Nat → List Nat → Option (List DFUImage × List Nat)
  | 0, s => some ([], s)
  | n + 1, s =>
    match DFUImage.readImage s with
    | (_, none) => none
    | (img, some s1) =>
      if img.m_valid then
        match readImages n s1 with
        | none => none
        | some (imgs, s2) => some (img :: imgs, s2)
      else none

/-- The `DFUFile` value left behind by a failed parse: `m_valid = false`; the
source leaves the other members in whatever (partially read or indeterminate)
state they were in, modelled by defaults. -/
def DFUFile.invalid : DFUFile :=
  { m_valid := false
    m_Prefix := { Signature := [], Version := 0, Size := 0, Targets := 0 }
    m_images := []
    m_suffix := { DeviceVersion := 0, Product := 0, Vendor := 0, DfuFormat := 0,
                  Ufd := [], Length := 0, Crc32 := 0 } }

/-- `DFUFile(const char* filename)` (src/DfuSeFile.h lines 373-403): read the
prefix (return invalid on a failed stream or a signature other than
`"DfuSe"`), read the declared number of images (return invalid on a failed
stream or an invalid image), then read the suffix and set `m_valid = true`
WITHOUT checking whether the suffix read succeeded — the source performs no
stream check after `dfuFile >> m_suffix`.  When the suffix read fails its
fields are partially read or indeterminate in the source; the model keeps
the defaults in that case. -/
def DFUFile.parseFile (s : List Nat) : DFUFile :=
  match FilePrefix.read s with
  | none => DFUFile.invalid
  | some (pre, s1) =>
    if pre.Signature ≠ dfuSeSig then DFUFile.invalid
    else
      match readImages pre.Targets s1 with
      | none => DFUFile.invalid
      | some (images, s2) =>
        let suffix :=
          match FileSuffix.read s2 with
          | some (suf, _) => suf
          | none => DFUFile.invalid.m_suffix
        { m_valid := true, m_Prefix := pre, m_images := images, m_suffix := suffix }

/-! ## The example scenario

The concrete container of the spec's example: vendor `0x1234`, product
`0x5678`, device version `0x0100`; one image (`altSetting = 0`, name
`"App"`) holding one target at address `0x08000000` with the four payload
bytes `DE AD BE EF`.  `exampleImage` is built with the uninitialized
`Elements` field taken as 0 (the luckiest possible run); `exampleImageJunk`
takes it as 1. -/

def appName : List Nat := [0x41, 0x70, 0x70]

def exampleTarget : DFUTarget :=
  DFUTarget.create 0x08000000 [0xDE, 0xAD, 0xBE, 0xEF]

def exampleImage : DFUImage :=
  (DFUImage.create 0 0 appName).AddTarget exampleTarget

def exampleImageJunk : DFUImage :=
  (DFUImage.create 1 0 appName).AddTarget exampleTarget

def exampleFile : DFUFile :=
  (DFUFile.create 0x1234 0x5678 0x0100).AddImage exampleImage

def exampleFileJunk : DFUFile :=
  (DFUFile.create 0x1234 0x5678 0x0100).AddImage exampleImageJunk

theorem toLE_length (k : Nat) : ∀ v, (toLE v k).length = k := by
  induction k with
  | zero => intro v; rfl
  | succ k ih =>
    intro v
    show ((v % 256) :: toLE (v / 256) k).length = k + 1
    simp [ih]

theorem fromLE_toLE (k : Nat) : ∀ v, fromLE (toLE v k) = v % 256 ^ k := by
  induction k with
  | zero => intro v; show (0 : Nat) = v % 256 ^ 0; rw [pow_zero]; omega
  | succ k ih =>
    intro v
    show (v % 256) % 256 + 256 * fromLE (toLE (v / 256) k) = v % 256 ^ (k + 1)
    rw [ih, Nat.mod_mod_of_dvd v (dvd_refl 256), pow_succ', Nat.mod_mul]

theorem takeN_append {n : Nat} {xs r : List Nat} (h : xs.length = n) :
    takeN n (xs ++ r) = some (xs, r) := by
  subst h
  simp [takeN, List.take_left, List.drop_left]

theorem readLE_append {k : Nat} {xs r : List Nat} (h : xs.length = k) :
    readLE k (xs ++ r) = some (fromLE xs, r) := by
  simp [readLE, takeN_append h]

theorem readLE_toLE (k v : Nat) (r : List Nat) :
    readLE k (toLE v k ++ r) = some (v % 256 ^ k, r) := by
  rw [readLE_append (toLE_length k v), fromLE_toLE]

theorem crc32_loop_append (table : List Nat) (c : Nat) (xs ys : List Nat) :
    crc32_loop table c (xs ++ ys) = crc32_loop table (crc32_loop table c xs) ys := by
  induction xs generalizing c with
  | nil => rfl
  | cons b xs ih => simp [crc32_loop, ih]

/-! ## Well-formedness

The field-range and bookkeeping invariants every object reachable through
the source's constructors with a zero-initialized `Elements` field (or
through a successful parse) satisfies; they are exactly what the fixed-width
fields of the format can represent. -/

def wfTarget (t : DFUTarget) : Prop :=
  t.m_Prefix.Address < 2 ^ 32 ∧ t.m_Prefix.Size < 2 ^ 32 ∧
    t.m_Prefix.Size = t.m_elements.length

def wfImage (img : DFUImage) : Prop :=
  img.m_Prefix.Signature = targetSig ∧
  img.m_Prefix.AltSetting < 2 ^ 8 ∧
  img.m_Prefix.IsNamed < 2 ^ 32 ∧
  img.m_Prefix.Name.length = 255 ∧
  img.m_Prefix.Size < 2 ^ 32 ∧
  img.m_Prefix.Elements = img.m_targets.length ∧
  img.m_Prefix.Elements < 2 ^ 32 ∧
  img.m_valid = true ∧
  (∀ t ∈ img.m_targets, wfTarget t)

def wfFile (f : DFUFile) : Prop :=
  f.m_Prefix.Signature = dfuSeSig ∧
  f.m_Prefix.Version < 2 ^ 8 ∧
  f.m_Prefix.Size < 2 ^ 32 ∧
  f.m_Prefix.Targets = f.m_images.length ∧
  f.m_Prefix.Targets < 2 ^ 8 ∧
  f.m_suffix.DeviceVersion < 2 ^ 16 ∧
  f.m_suffix.Product < 2 ^ 16 ∧
  f.m_suffix.Vendor < 2 ^ 16 ∧
  f.m_suffix.DfuFormat < 2 ^ 16 ∧
  f.m_suffix.Ufd.length = 3 ∧
  f.m_suffix.Length < 2 ^ 8 ∧
  f.m_suffix.Crc32 < 2 ^ 32 ∧
  f.m_valid = true ∧
  (∀ img ∈ f.m_images, wfImage img)

/-! ## Parsing a serialized object recovers it -/

theorem filePrefix_read_serialize (p : FilePrefix) (r : List Nat)
    (h : p.Signature.length = 5) :
    FilePrefix.read (p.serialize ++ r) =
      some ({ Signature := p.Signature, Version := p.Version % 2 ^ 8,
              Size := p.Size % 2 ^ 32, Targets := p.Targets % 2 ^ 8 }, r) := by
  have e : p.serialize ++ r =
      p.Signature ++ (toLE p.Version 1 ++ (toLE p.Size 4 ++ (toLE p.Targets 1 ++ r))) := by
    simp [FilePrefix.serialize, FilePrefix.chunks]
  rw [e]
  simp only [FilePrefix.read, takeN_append h, readLE_toLE]
  norm_num

theorem TargetPrefix.read_toLE (a sz : Nat) (r : List Nat) :
    TargetPrefix.read (toLE a 4 ++ (toLE sz 4 ++ r)) =
      some ({ Address := a % 2 ^ 32, Size := sz % 2 ^ 32 }, r) := by
  simp only [TargetPrefix.read, readLE_toLE]
  norm_num

theorem dfuTarget_read_serialize (t : DFUTarget) (r : List Nat) (hw : wfTarget t) :
    DFUTarget.read (t.serialize ++ r) = some (t, r) := by
  obtain ⟨⟨A, S⟩, els⟩ := t
  obtain ⟨ha, hs, hl⟩ := hw
  simp only at ha hs hl
  subst hl
  have e : DFUTarget.serialize ⟨⟨A, els.length⟩, els⟩ ++ r =
      toLE A 4 ++ (toLE els.length 4 ++ (els ++ r)) := by
    simp [DFUTarget.serialize, DFUTarget.chunks]
  rw [e]
  simp only [DFUTarget.read, TargetPrefix.read_toLE]
  rw [Nat.mod_eq_of_lt ha, Nat.mod_eq_of_lt hs, takeN_append rfl]

theorem readTargets_serialize (ts : List DFUTarget) (r : List Nat)
    (hw : ∀ t ∈ ts, wfTarget t) :
    readTargets ts.length ((ts.map DFUTarget.serialize).flatten ++ r) = some (ts, r) := by
  induction ts with
  | nil => rfl
  | cons t ts ih =>
    have e : ((t :: ts).map DFUTarget.serialize).flatten ++ r =
        t.serialize ++ ((ts.map DFUTarget.serialize).flatten ++ r) := by
      simp
    simp only [List.length_cons, e]
    rw [readTargets, dfuTarget_read_serialize t _ (hw t (by simp))]
    simp [ih (fun t2 ht2 => hw t2 (by simp [ht2]))]

theorem imagePrefix_read_serialize (p : ImagePrefix) (r : List Nat)
    (h6 : p.Signature.length = 6) (h255 : p.Name.length = 255) :
    ImagePrefix.read (p.serialize ++ r) =
      some ({ Signature := p.Signature, AltSetting := p.AltSetting % 2 ^ 8,
              IsNamed := p.IsNamed % 2 ^ 32, Name := p.Name,
              Size := p.Size % 2 ^ 32, Elements := p.Elements % 2 ^ 32 }, r) := by
  have e : p.serialize ++ r =
      p.Signature ++ (toLE p.AltSetting 1 ++ (toLE p.IsNamed 4 ++
        (p.Name ++ (toLE p.Size 4 ++ (toLE p.Elements 4 ++ r))))) := by
    simp [ImagePrefix.serialize, ImagePrefix.chunks]
  rw [e]
  simp only [ImagePrefix.read, takeN_append h6, takeN_append h255, readLE_toLE]
  norm_num

theorem DFUImage.readImage_serialize (img : DFUImage) (r : List Nat)
    (hw : wfImage img) :
    DFUImage.readImage (img.serialize ++ r) = (img, some r) := by
  obtain ⟨hsig, halt, hnamed, hname, hsize, hcount, hlt, hvalid, hts⟩ := hw
  have echunks : (img.m_targets.flatMap DFUTarget.chunks).flatten =
      (img.m_targets.map DFUTarget.serialize).flatten := by
    induction img.m_targets with
    | nil => rfl
    | cons t ts ih => simp [DFUTarget.serialize, ih]
  have e : img.serialize ++ r =
      img.m_Prefix.serialize ++ ((img.m_targets.map DFUTarget.serialize).flatten ++ r) := by
    simp [DFUImage.serialize, DFUImage.chunks, ImagePrefix.serialize, echunks]
  rw [e, DFUImage.readImage,
    imagePrefix_read_serialize img.m_Prefix _ (by rw [hsig]; rfl) hname]
  rw [Nat.mod_eq_of_lt halt, Nat.mod_eq_of_lt hnamed, Nat.mod_eq_of_lt hsize,
    Nat.mod_eq_of_lt hlt]
  simp only [hsig, ne_eq, not_true_eq_false, if_false]
  rw [hcount, readTargets_serialize img.m_targets r hts]
  obtain ⟨⟨s1, a1, n1, nm1, sz1, e1⟩, ts1, v1⟩ := img
  simp only at hsig hcount hvalid
  simp [hsig, hcount, hvalid]

theorem readImages_serialize (images : List DFUImage) (r : List Nat)
    (hw : ∀ img ∈ images, wfImage img) :
    readImages images.length ((images.map DFUImage.serialize).flatten ++ r) =
      some (images, r) := by
  induction images with
  | nil => rfl
  | cons img images ih =>
    have e : ((img :: images).map DFUImage.serialize).flatten ++ r =
        img.serialize ++ ((images.map DFUImage.serialize).flatten ++ r) := by
      simp
    obtain ⟨-, -, -, -, -, -, -, hv, -⟩ := hw img (by simp)
    simp only [List.length_cons, e]
    rw [readImages, DFUImage.readImage_serialize img _ (hw img (by simp))]
    simp [hv, ih (fun i hi => hw i (by simp [hi]))]

theorem fileSuffix_read_serialize (s : FileSuffix) (r : List Nat)
    (h3 : s.Ufd.length = 3) :
    FileSuffix.read (s.serialize ++ r) =
      some ({ DeviceVersion := s.DeviceVersion % 2 ^ 16, Product := s.Product % 2 ^ 16,
              Vendor := s.Vendor % 2 ^ 16, DfuFormat := s.DfuFormat % 2 ^ 16,
              Ufd := s.Ufd, Length := s.Length % 2 ^ 8, Crc32 := s.Crc32 % 2 ^ 32 }, r) := by
  have e : s.serialize ++ r =
      toLE s.DeviceVersion 2 ++ (toLE s.Product 2 ++ (toLE s.Vendor 2 ++
        (toLE s.DfuFormat 2 ++ (s.Ufd ++ (toLE s.Length 1 ++ (toLE s.Crc32 4 ++ r)))))) := by
    simp [FileSuffix.serialize, FileSuffix.chunksNoCrc]
  rw [e]
  simp only [FileSuffix.read, readLE_toLE, takeN_append h3]
  norm_num

/-- Round trip of the codec: parsing the byte sequence `DFUFile::Write` emits
for a well-formed container reproduces the container exactly.  The
well-formedness hypotheses hold for every container built by the constructor
and `AddImage` — except that the image `Elements` bookkeeping
(`m_Prefix.Elements = m_targets.length`) relies on the uninitialized
`Elements` field having started at zero. -/
theorem DFUFile.parse_serializeBytes (f : DFUFile) (hw : wfFile f) :
    DFUFile.parseFile f.serializeBytes = f := by
  obtain ⟨hsig, hver, hsize, hcount, hlt, hdv, hpr, hvn, hfmt, hufd, hlen, hcrc,
    hvalid, himgs⟩ := hw
  have e : f.serializeBytes =
      f.m_Prefix.serialize ++
        ((f.m_images.map DFUImage.serialize).flatten ++ f.m_suffix.serialize) := by
    simp [DFUFile.serializeBytes]
  rw [e, DFUFile.parseFile, filePrefix_read_serialize f.m_Prefix _ (by rw [hsig]; rfl)]
  rw [Nat.mod_eq_of_lt hver, Nat.mod_eq_of_lt hsize, Nat.mod_eq_of_lt hlt]
  simp only [hsig, ne_eq, not_true_eq_false, if_false]
  rw [hcount, readImages_serialize f.m_images _ himgs]
  have hsuf := fileSuffix_read_serialize f.m_suffix [] hufd
  rw [Nat.mod_eq_of_lt hdv, Nat.mod_eq_of_lt hpr, Nat.mod_eq_of_lt hvn,
    Nat.mod_eq_of_lt hfmt, Nat.mod_eq_of_lt hlen, Nat.mod_eq_of_lt hcrc,
    List.append_nil] at hsuf
  obtain ⟨v0, ⟨ps, pv, pz, pt⟩, imgs0, ⟨sdv, spr, svn, sfm, suf, sln, scr⟩⟩ := f
  simp only at hsig hcount hvalid hsuf
  simp [hsig, hcount, hvalid, hsuf]

/-! ## Signature and validity helper lemmas -/

theorem takeN_eq_some {n : Nat} {s xs r : List Nat}
    (h : takeN n s = some (xs, r)) : xs = s.take n ∧ r = s.drop n := by
  unfold takeN at h
  split at h
  · simp_all
  · cases h

/-- Whatever prefix record a successful `DFUFile::Prefix::operator>>` leaves
behind carries the first five stream bytes as its signature. -/
theorem filePrefix_read_signature {s rest : List Nat} {pre : FilePrefix}
    (h : FilePrefix.read s = some (pre, rest)) : pre.Signature = s.take 5 := by
  unfold FilePrefix.read at h
  cases h1 : takeN 5 s with
  | none => simp [h1] at h
  | some p1 =>
    obtain ⟨sig, s1⟩ := p1
    simp only [h1] at h
    cases h2 : readLE 1 s1 with
    | none => simp [h2] at h
    | some p2 =>
      obtain ⟨version, s2⟩ := p2
      simp only [h2] at h
      cases h3 : readLE 4 s2 with
      | none => simp [h3] at h
      | some p3 =>
        obtain ⟨size, s3⟩ := p3
        simp only [h3] at h
        cases h4 : readLE 1 s3 with
        | none => simp [h4] at h
        | some p4 =>
          obtain ⟨targets, s4⟩ := p4
          simp only [h4] at h
          cases h
          exact (takeN_eq_some h1).1

/-- Whatever image prefix record a successful `DFUImage::Prefix::operator>>`
leaves behind carries the first six stream bytes as its signature. -/
theorem imagePrefix_read_signature {s rest : List Nat} {pre : ImagePrefix}
    (h : ImagePrefix.read s = some (pre, rest)) : pre.Signature = s.take 6 := by
  unfold ImagePrefix.read at h
  cases h1 : takeN 6 s with
  | none => simp [h1] at h
  | some p1 =>
    obtain ⟨sig, s1⟩ := p1
    simp only [h1] at h
    cases h2 : readLE 1 s1 with
    | none => simp [h2] at h
    | some p2 =>
      obtain ⟨alt, s2⟩ := p2
      simp only [h2] at h
      cases h3 : readLE 4 s2 with
      | none => simp [h3] at h
      | some p3 =>
        obtain ⟨named, s3⟩ := p3
        simp only [h3] at h
        cases h4 : takeN 255 s3 with
        | none => simp [h4] at h
        | some p4 =>
          obtain ⟨name, s4⟩ := p4
          simp only [h4] at h
          cases h5 : readLE 4 s4 with
          | none => simp [h5] at h
          | some p5 =>
            obtain ⟨size, s5⟩ := p5
            simp only [h5] at h
            cases h6 : readLE 4 s5 with
            | none => simp [h6] at h
            | some p6 =>
              obtain ⟨elements, s6⟩ := p6
              simp only [h6] at h
              cases h
              exact (takeN_eq_some h1).1

/-- After any run of `AddTarget` calls, the validity flag of an image is its
starting flag once no target was added, and true otherwise. -/
theorem foldl_AddTarget_valid (ts : List DFUTarget) (img : DFUImage) :
    (List.foldl DFUImage.AddTarget img ts).m_valid = (img.m_valid || !ts.isEmpty) := by
  induction ts generalizing img with
  | nil => simp
  | cons t ts ih => simp [ih, DFUImage.AddTarget]

/-! ## The claims -/

set_option maxRecDepth 100000

/-- C2: the CRC32 of a concatenation computed in one call of `detail::crc32`
equals the value computed incrementally — the update loop run on the first
chunk, then on the second, with the final XOR applied once at the end. -/
theorem C2_crc32_incremental_equals_oneshot (crc : Nat) (data1 data2 : List Nat) :
    detail_crc32 crc (data1 ++ data2) =
      crc32_finalize (crc32_update (crc32_update crc data1) data2) := by
  simp [detail_crc32, crc32_finalize, crc32_update, crc32_loop_append]

/-- C3: the claim states `fileSizeField = 11 + Σ (274 + totalElementSize)`,
giving 297 for the example container.  The constructor starts the
accumulator at 27 (prefix plus suffix, contradicting the source's own field
comment `size of the DFU file (not including suffix)`), so the example
container's field is 313 = 27 + 274 + 12, not 297. -/
theorem C3_fileSize_includes_suffix :
    (DFUFile.create 0x1234 0x5678 0x0100).m_Prefix.Size = 27 ∧
    exampleFile.m_Prefix.Size = 313 ∧
    exampleFile.m_Prefix.Size ≠ 297 := by
  refine ⟨rfl, by decide, by decide⟩

set_option maxRecDepth 100000 in
/-- C4: the round-trip claim fails on the code because the `DFUImage`
constructor never initializes `m_Prefix.Elements`: the serialized element
count is `indeterminate + number of targets`.  With the indeterminate value
taken as 1 (`exampleFileJunk`) the parser tries to read one target too many,
runs into the suffix bytes and fails, leaving the container invalid; the
identical container whose indeterminate value happens to be 0
(`exampleFile`) round-trips to an exactly equal container. -/
theorem C4_roundtrip_broken_by_uninitialized_elements :
    (DFUFile.parseFile exampleFileJunk.serializeBytes).m_valid = false ∧
    DFUFile.parseFile exampleFile.serializeBytes = exampleFile := by
  refine ⟨by decide, by decide⟩

/-- C5: the claim states that after M `AddTarget` calls `totalElementSize`
equals `Σ (si + 8)` and `elementCount` equals M.  The size half holds, but
`m_Prefix.Elements` is never initialized by the constructor, so the element
count is `indeterminate + M`: with the indeterminate value taken as 1, one
`AddTarget` of a 4-byte payload leaves `Size = 12` (as claimed) but
`Elements = 2 ≠ 1`. -/
theorem C5_elementCount_off_by_initial_junk :
    exampleImageJunk.m_targets.length = 1 ∧
    exampleImageJunk.m_Prefix.Size = 12 ∧
    exampleImageJunk.m_Prefix.Elements = 2 ∧
    exampleImageJunk.m_Prefix.Elements ≠ exampleImageJunk.m_targets.length := by
  refine ⟨rfl, by decide, by decide, by decide⟩

/-- A stream that ends inside the 16-byte suffix: the 11-byte prefix of a
freshly constructed container (signature `"DfuSe"`, zero images) followed by
only 10 of the 16 suffix bytes. -/
def truncatedSuffixStream : List Nat :=
  (DFUFile.create 0x1234 0x5678 0x0100).m_Prefix.serialize ++ List.replicate 10 0

/-- C6 counterexample: the claim states a stream truncated within the suffix
yields an invalid container; parsing the 21-byte `truncatedSuffixStream`
(11-byte prefix plus 10 of the 16 suffix bytes) yields a VALID container,
because `DFUFile(const char*)` never checks the stream after
`dfuFile >> m_suffix`. -/
theorem C6_truncated_suffix_still_valid :
    truncatedSuffixStream.length = 21 ∧
    (DFUFile.parseFile truncatedSuffixStream).m_valid = true := by
  refine ⟨by decide, by decide⟩

/-- C6 (amended): the container is marked valid once the 11-byte prefix is
read with signature `"DfuSe"` and every one of the images it declares is
read successfully; the suffix read is attempted but its outcome is never
checked, so whatever follows the images — including a suffix truncated to
any length, or nothing at all — leaves the container valid.  Stated for
every prefix carrying the `"DfuSe"` signature and declaring the number of
images that follow it, every list of well-formed images (any count that
fits the one-byte field, zero included), and every tail. -/
theorem C6_validity_ignores_suffix_read (pre : FilePrefix) (images : List DFUImage)
    (tail : List Nat) (hsig : pre.Signature = dfuSeSig)
    (hn : pre.Targets = images.length) (hlt : pre.Targets < 2 ^ 8)
    (himgs : ∀ img ∈ images, wfImage img) :
    (DFUFile.parseFile
        (pre.serialize ++ ((images.map DFUImage.serialize).flatten ++ tail))).m_valid
      = true := by
  rw [DFUFile.parseFile, filePrefix_read_serialize pre _ (by rw [hsig]; rfl)]
  rw [Nat.mod_eq_of_lt hlt]
  simp only [hsig, ne_eq, not_true_eq_false, if_false]
  rw [hn, readImages_serialize images tail himgs]

/-- C6 witness for the amended claim: a prefix declaring one image, the
serialized example image, and a tail of only 10 of the 16 suffix bytes — a
stream truncated within the suffix that still parses valid after its one
declared image was read. -/
theorem C6_validity_ignores_suffix_read_witness :
    (DFUFile.parseFile
        (({ Signature := dfuSeSig, Version := 1, Size := 313,
            Targets := 1 } : FilePrefix).serialize ++
          (([exampleImage].map DFUImage.serialize).flatten ++
            List.replicate 10 0))).m_valid = true :=
  C6_validity_ignores_suffix_read
    { Signature := dfuSeSig, Version := 1, Size := 313, Targets := 1 }
    [exampleImage] (List.replicate 10 0) rfl rfl (by decide)
    (by
      intro img h
      rw [List.mem_singleton] at h
      subst h
      refine ⟨rfl, by decide, by decide, by decide, by decide, by decide,
        by decide, rfl, ?_⟩
      intro t ht
      rw [show exampleImage.m_targets = [exampleTarget] from rfl,
        List.mem_singleton] at ht
      subst ht
      exact ⟨by decide, by decide, by decide⟩)

/-- The 255-byte name `"AAA...A"`: one byte longer than the 254 bytes the
claim says a name is truncated to. -/
def longName : List Nat := List.replicate 255 0x41

/-- C7 counterexample: the claim states the serialized 255-byte name field
always keeps at least one trailing NUL (names truncated to at most 254
bytes).  The constructor uses `strncpy(Name, targetName.c_str(), 255)`: a
255-byte name fills the whole field and no NUL byte is present at all. -/
theorem C7_long_name_has_no_terminator :
    (DFUImage.create 0 0 longName).m_Prefix.Name = longName ∧
    (DFUImage.create 0 0 longName).m_Prefix.Name.length = 255 ∧
    ¬ 0 ∈ (DFUImage.create 0 0 longName).m_Prefix.Name := by
  refine ⟨by decide, by decide, by decide⟩

/-- C7 (amended): for a name of at most 254 bytes none of which is NUL, the
255-byte name field is the name NUL-padded to exactly 255 bytes, ending in
at least one NUL byte; a name of 255 bytes or more instead fills the field
completely (truncated to 255, not 254) with no terminator. -/
theorem C7_name_padded_when_short (g id : Nat) (name : List Nat)
    (hlen : name.length ≤ 254) (hnz : 0 ∉ name) :
    (DFUImage.create g id name).m_Prefix.Name =
      name ++ List.replicate (255 - name.length) 0 ∧
    (DFUImage.create g id name).m_Prefix.Name.length = 255 ∧
    (DFUImage.create g id name).m_Prefix.Name.getLast? = some 0 := by
  have htw : name.takeWhile (fun b => b != 0) = name :=
    List.takeWhile_eq_self_iff.mpr (by
      intro x hx
      simp only [bne_iff_ne, ne_eq]
      exact fun h0 => hnz (h0 ▸ hx))
  have hname : (DFUImage.create g id name).m_Prefix.Name =
      name ++ List.replicate (255 - name.length) 0 := by
    show strncpy255 name = _
    unfold strncpy255
    rw [htw, List.take_of_length_le (by omega)]
  refine ⟨hname, ?_, ?_⟩
  · rw [hname]; simp; omega
  · rw [hname, List.getLast?_append, List.getLast?_replicate]
    rw [if_neg (by omega)]
    rfl

/-- C7 witness: the example name `"App"` instantiates the amended claim. -/
theorem C7_name_padded_when_short_witness :
    appName.length ≤ 254 ∧ 0 ∉ appName ∧
    ((DFUImage.create 0 0 appName).m_Prefix.Name =
        appName ++ List.replicate (255 - appName.length) 0 ∧
      (DFUImage.create 0 0 appName).m_Prefix.Name.length = 255 ∧
      (DFUImage.create 0 0 appName).m_Prefix.Name.getLast? = some 0) :=
  ⟨by decide, by decide, C7_name_padded_when_short 0 0 appName (by decide) (by decide)⟩

/-- C8: a target record whose declared 4-byte size field exceeds the bytes
remaining after the 8-byte header fails deserialization (the stream enters
the failed state, which the enclosing image and file loops turn into
invalid objects) instead of yielding a target with a short payload. -/
theorem C8_truncated_target_read_fails (a sz rest : List Nat)
    (ha : a.length = 4) (hsz : sz.length = 4) (h : rest.length < fromLE sz) :
    DFUTarget.read (a ++ (sz ++ rest)) = none := by
  simp only [DFUTarget.read, TargetPrefix.read, readLE_append ha, readLE_append hsz]
  rw [takeN, if_neg (by omega)]

/-- C8 witness: a target declaring 5 payload bytes with only 3 bytes left. -/
theorem C8_truncated_target_read_fails_witness :
    ([0, 0, 0, 0] : List Nat).length = 4 ∧
    ([5, 0, 0, 0] : List Nat).length = 4 ∧
    ([1, 2, 3] : List Nat).length < fromLE [5, 0, 0, 0] ∧
    DFUTarget.read ([0, 0, 0, 0] ++ ([5, 0, 0, 0] ++ [1, 2, 3])) = none :=
  ⟨rfl, rfl, by decide,
    C8_truncated_target_read_fails [0, 0, 0, 0] [5, 0, 0, 0] [1, 2, 3] rfl rfl (by decide)⟩

/-- C9: a stream whose first five bytes are not `"DfuSe"` parses to an
invalid container, and a stream whose first six bytes are not `"Target"`
parses to an invalid image. -/
theorem C9_bad_signature_leaves_invalid :
    (∀ s : List Nat, s.take 5 ≠ dfuSeSig → (DFUFile.parseFile s).m_valid = false) ∧
    (∀ s : List Nat, s.take 6 ≠ targetSig → (DFUImage.readImage s).1.m_valid = false) := by
  constructor
  · intro s hs
    unfold DFUFile.parseFile
    cases h1 : FilePrefix.read s with
    | none => rfl
    | some p =>
      obtain ⟨pre, s1⟩ := p
      have hsig := filePrefix_read_signature h1
      have hneq : pre.Signature ≠ dfuSeSig := hsig ▸ hs
      simp [hneq, DFUFile.invalid]
  · intro s hs
    unfold DFUImage.readImage
    cases h1 : ImagePrefix.read s with
    | none => rfl
    | some p =>
      obtain ⟨pre, s1⟩ := p
      have hsig := imagePrefix_read_signature h1
      have hneq : pre.Signature ≠ targetSig := hsig ▸ hs
      simp [hneq]

/-- C9 witness: a 5-byte garbage header and a 6-byte garbage image header. -/
theorem C9_bad_signature_leaves_invalid_witness :
    (DFUFile.parseFile [1, 2, 3, 4, 5, 6, 7, 8, 9, 10, 11]).m_valid = false ∧
    (DFUImage.readImage (List.replicate 300 9)).1.m_valid = false :=
  ⟨C9_bad_signature_leaves_invalid.1 [1, 2, 3, 4, 5, 6, 7, 8, 9, 10, 11] (by decide),
   C9_bad_signature_leaves_invalid.2 (List.replicate 300 9) (by decide)⟩

/-- A 274-byte image record with a correct `"Target"` signature that declares
zero elements. -/
def emptyImageRecord : List Nat :=
  targetSig ++ ([7] ++ (toLE 1 4 ++ (List.replicate 255 0 ++ (toLE 0 4 ++ toLE 0 4))))

/-- C10 counterexample: the claim states an image's validity flag is true
only if the image holds at least one target; parsing a record that declares
zero elements yields an image that is VALID with an empty target list. -/
theorem C10_parsed_zero_element_image_valid :
    (DFUImage.readImage emptyImageRecord).1.m_valid = true ∧
    (DFUImage.readImage emptyImageRecord).1.m_targets = [] := by
  refine ⟨by decide, by decide⟩

/-- C10 (amended): for images built through the constructor, the validity
flag is true exactly when at least one `AddTarget` call was made (so a valid
constructed image holds at least one target); a parsed image, by contrast,
is marked valid whenever its declared element count — which may be zero —
was satisfied. -/
theorem C10_constructed_valid_iff_nonempty (g id : Nat) (name : List Nat)
    (ts : List DFUTarget) :
    (List.foldl DFUImage.AddTarget (DFUImage.create g id name) ts).m_valid = true
      ↔ ts ≠ [] := by
  rw [foldl_AddTarget_valid]
  show (false || !ts.isEmpty) = true ↔ ts ≠ []
  simp [List.isEmpty_iff]

end DfuSe
